import Mathlib

/-!
# Verification of the emsawd historical-weather aggregation layer

Shallow embedding of the core of `enhanced-multi-service-aggregated-weather-data`:
the `WeatherRecord` data model (`emsawd/core/models.py`), the aggregation service
`WeatherService.fetch_weather_for_range` (`emsawd/core/services.py`), and the
provider implementations (`emsawd/repositories/*.py`).

Conventions of the embedding:
* A Python `datetime.date` is represented by its proleptic-Gregorian ordinal
  (`date.toordinal()`), an `Int`.  Then `d - timedelta(days = n)` is `d - n`,
  `d + timedelta(days = 1)` is `d + 1`, and `d1 <= d2` is `d1 ≤ d2` — Python's
  `date`/`timedelta` arithmetic is exactly ordinal arithmetic.  `d.year` becomes
  `yearOfOrdinal d`, CPython's `_ord2ymd` year computation.
* Python floats that the code only stores, compares and adds are modelled as `Rat`.
* A function that can `raise` is modelled as returning `Except Err _`, with one
  `Err` constructor per distinct `raise` site / exception class.
* HTTP traffic is modelled by an oracle argument: the parsed JSON payload the
  code would see for a given request, or a network-failure marker
  (`requests.exceptions.RequestException`, raised by `requests.get` or
  `raise_for_status`).
-/

set_option autoImplicit false

namespace Emsawd

/-! ## Calendar arithmetic (CPython `datetime.date` internals)

`isLeap`, `daysBeforeMonth`, `toOrdinal` follow CPython's `_is_leap`,
`_days_before_month` and `date.toordinal`; `yearOfOrdinal` is the year part of
CPython's `_ord2ymd`.  `Int.fdiv` is Python's floor division `//` and `Int.fmod`
is Python's `%`. -/

def isLeap (y : Int) : Bool :=
  y % 4 == 0 && (y % 100 != 0 || y % 400 == 0)

def daysBeforeMonth (y : Int) (m : Nat) : Int :=
  (match m with
   | 1 => 0 | 2 => 31 | 3 => 59 | 4 => 90 | 5 => 120 | 6 => 151
   | 7 => 181 | 8 => 212 | 9 => 243 | 10 => 273 | 11 => 304 | _ => 334)
  + (if 2 < m ∧ isLeap y then 1 else 0)

/-- Python `date(y, m, d).toordinal()`: day 1 is 0001-01-01. -/
def toOrdinal (y : Int) (m d : Nat) : Int :=
  (y - 1) * 365 + (y - 1).fdiv 4 - (y - 1).fdiv 100 + (y - 1).fdiv 400
    + daysBeforeMonth y m + d

/-- Python `date.fromordinal(n).year` (the year computation of CPython's
`_ord2ymd`: peel off 400-, 100-, 4- and 1-year cycles). -/
def yearOfOrdinal (ord : Int) : Int :=
  let n := ord - 1
  let n400 := n.fdiv 146097
  let r400 := n.fmod 146097
  let n100 := r400.fdiv 36524
  let r100 := r400.fmod 36524
  let n4 := r100.fdiv 1461
  let r4 := r100.fmod 1461
  let n1 := r4.fdiv 365
  let year := n400 * 400 + 1 + n100 * 100 + n4 * 4 + n1
  if n1 == 4 || n100 == 4 then year - 1 else year

/-! ## Errors

One constructor per distinct Python exception the embedded code can raise. -/

inductive Err where
  /-- `ValueError` from `WeatherRecord.__post_init__` (models.py line 19),
  carrying the offending temperatures. -/
  | validationError (max_temp_c min_temp_c : Rat)
  /-- `ValueError("Could not find location: ...")` (services.py line 49). -/
  | locationNotFound (location : String)
  /-- `ValueError("API response did not contain 'daily' data.")`
  (weather_repository.py line 54). -/
  | missingDailyData
  /-- `ValueError("Network error while fetching weather data: ...")` re-raised
  from `requests.exceptions.RequestException`. -/
  | networkError
  /-- `ValueError("Error parsing weather API response: ...")`, wrapping the
  caught `KeyError`/`IndexError`/`ValueError`. -/
  | parseError (inner : Err)
  /-- A Python `IndexError` (out-of-range list index). -/
  | indexError
  /-- An uncaught `requests.exceptions.RequestException` escaping
  `AccuWeatherRepository._get_location_key`. -/
  | requestException
  /-- `ValueError("Could not get location key from AccuWeather")`
  (accuweather_repository.py line 55). -/
  | locationKeyError
  deriving DecidableEq, Repr

/-! ## Data model (`emsawd/core/models.py`) -/

structure WeatherRecord where
  record_date : Int
  year : Int
  location : String
  max_temp_c : Rat
  min_temp_c : Rat
  precipitation_mm : Rat
  deriving DecidableEq, Repr

/-- Construction of a `WeatherRecord`: the dataclass constructor followed by
`__post_init__`, which raises `ValueError` when `max_temp_c < min_temp_c`
(models.py lines 16–19). -/
def mkWeatherRecord (record_date : Int) (year : Int) (location : String)
    (max_temp_c min_temp_c precipitation_mm : Rat) : Except Err WeatherRecord :=
  if max_temp_c < min_temp_c then
    .error (.validationError max_temp_c min_temp_c)
  else
    .ok ⟨record_date, year, location, max_temp_c, min_temp_c, precipitation_mm⟩

/-! ## Aggregation service (`emsawd/core/services.py`)

`WeatherService.fetch_weather_for_range` is generic in the repositories it was
constructed with: `get_coordinates` is the (already-evaluated) outcome of
`self.geocoding_repo.get_coordinates(location)`, and `get_historical_weather`
is `self.weather_repo.get_historical_weather`.  The record type is a type
parameter because the service never inspects records, only concatenates the
lists the provider returns. -/

def fetch_weather_for_range {α : Type} (location : String)
    (get_coordinates : Except Err (Rat × Rat))
    (get_historical_weather : Rat → Rat → Int → Int → Except Err (List α))
    (start_date end_date : Int) (years_past : Nat) : Except Err (List α) :=
  match get_coordinates with
  | .error _ => .error (.locationNotFound location)
  | .ok (latitude, longitude) =>
    .ok ((List.range (years_past + 1)).foldl
      (fun (all_records : List α) (year_offset : Nat) =>
        let date_offset : Int := 365 * (year_offset : Int)
        let current_start := start_date - date_offset
        let current_end := end_date - date_offset
        match get_historical_weather latitude longitude current_start current_end with
        | .ok period_records => all_records ++ period_records
        | .error _ => all_records)
      [])

/-- The provider windows the loop of `fetch_weather_for_range` computes, in
iteration order: offset `k` gives `(start_date - 365*k, end_date - 365*k)`
(services.py lines 54–58). -/
def attemptedWindows (start_date end_date : Int) (years_past : Nat) : List (Int × Int) :=
  (List.range (years_past + 1)).map
    (fun (k : Nat) => (start_date - 365 * (k : Int), end_date - 365 * (k : Int)))

/-- The records one provider call contributes to the accumulator: the returned
list on success, nothing when the call raises (services.py lines 63–77). -/
def periodRecords {α : Type} (get_historical_weather : Rat → Rat → Int → Int → Except Err (List α))
    (latitude longitude : Rat) (w : Int × Int) : List α :=
  match get_historical_weather latitude longitude w.1 w.2 with
  | .ok period_records => period_records
  | .error _ => []

theorem foldl_collect_eq_flatMap {α β : Type} (g : β → Except Err (List α)) (l : List β)
    (acc : List α) :
    l.foldl (fun a b => match g b with | .ok rs => a ++ rs | .error _ => a) acc
      = acc ++ l.flatMap (fun b => match g b with | .ok rs => rs | .error _ => []) := by
  induction l generalizing acc with
  | nil => simp
  | cons b t ih =>
    simp only [List.foldl, List.flatMap_cons]
    cases g b with
    | ok rs => rw [ih]; simp [List.append_assoc]
    | error e => rw [ih]; simp

/-- When geocoding succeeds, the service's result is the concatenation, over
the attempted windows in order, of each window's contributed records. -/
theorem fetch_weather_for_range_ok {α : Type} (location : String) (latitude longitude : Rat)
    (get_historical_weather : Rat → Rat → Int → Int → Except Err (List α))
    (start_date end_date : Int) (years_past : Nat) :
    fetch_weather_for_range location (.ok (latitude, longitude)) get_historical_weather
        start_date end_date years_past
      = .ok ((attemptedWindows start_date end_date years_past).flatMap
          (periodRecords get_historical_weather latitude longitude)) := by
  simp only [fetch_weather_for_range, attemptedWindows, List.flatMap_map, periodRecords]
  rw [foldl_collect_eq_flatMap
    (fun (k : Nat) => get_historical_weather latitude longitude
      (start_date - 365 * (k : Int)) (end_date - 365 * (k : Int)))]
  simp

theorem flatMap_eq_filter_flatMap {α : Type} (l : List Nat) (g r : Nat → List α) (f : Nat)
    (hg : ∀ k ∈ l, g k = if k = f then [] else r k) :
    l.flatMap g = (l.filter (fun k => k != f)).flatMap r := by
  induction l with
  | nil => simp
  | cons k t ih =>
    rw [List.flatMap_cons, List.filter_cons]
    have ht := ih (fun j hj => hg j (List.mem_cons_of_mem k hj))
    by_cases hk : k = f
    · subst hk
      simp only [hg k (List.mem_cons_self k t), if_pos rfl, bne_self_eq_false,
        Bool.false_eq_true, if_false, List.nil_append]
      exact ht
    · simp only [hg k (List.mem_cons_self k t), if_neg hk,
        if_pos (show (k != f) = true by simp [hk]), List.flatMap_cons, ht]

/-! ## Claims about the data model and the aggregation service -/

/-- C2: constructing a `WeatherRecord` with `max_temp_c < min_temp_c` raises the
validation `ValueError`, and with `max_temp_c >= min_temp_c` it succeeds and
leaves every field exactly as supplied. -/
theorem record_construction_validates (record_date year : Int) (location : String)
    (max_temp_c min_temp_c precipitation_mm : Rat) :
    (max_temp_c < min_temp_c →
      mkWeatherRecord record_date year location max_temp_c min_temp_c precipitation_mm
        = .error (.validationError max_temp_c min_temp_c)) ∧
    (min_temp_c ≤ max_temp_c →
      mkWeatherRecord record_date year location max_temp_c min_temp_c precipitation_mm
        = .ok ⟨record_date, year, location, max_temp_c, min_temp_c, precipitation_mm⟩) := by
  refine ⟨fun h => ?_, fun h => ?_⟩
  · simp [mkWeatherRecord, h]
  · simp [mkWeatherRecord, not_lt.mpr h]

theorem record_construction_validates_witness :
    mkWeatherRecord 738946 2024 "x" 2 3 0 = .error (.validationError 2 3) ∧
    mkWeatherRecord 738946 2024 "x" 3 2 1 = .ok ⟨738946, 2024, "x", 3, 2, 1⟩ :=
  ⟨(record_construction_validates 738946 2024 "x" 2 3 0).1 (by norm_num),
   (record_construction_validates 738946 2024 "x" 3 2 1).2 (by norm_num)⟩

/-- C3: for `years_past = N` the service computes exactly `N + 1` provider
windows, one per offset `0..N`; each successive window lies strictly further in
the past (both endpoints strictly smaller); and, whatever the provider does —
failures included — the service's result is exactly the contributions of those
windows in order. -/
theorem fetch_attempts_all_offsets {α : Type} (location : String) (latitude longitude : Rat)
    (start_date end_date : Int) (years_past : Nat) (h : start_date ≤ end_date) :
    (attemptedWindows start_date end_date years_past).length = years_past + 1 ∧
    (∀ i : Nat, i < years_past →
      ∃ w w', (attemptedWindows start_date end_date years_past)[i]? = some w ∧
        (attemptedWindows start_date end_date years_past)[i + 1]? = some w' ∧
        w'.1 < w.1 ∧ w'.2 < w.2) ∧
    (∀ get_historical_weather : Rat → Rat → Int → Int → Except Err (List α),
      fetch_weather_for_range location (.ok (latitude, longitude)) get_historical_weather
          start_date end_date years_past
        = .ok ((attemptedWindows start_date end_date years_past).flatMap
            (periodRecords get_historical_weather latitude longitude))) := by
  refine ⟨by simp [attemptedWindows], fun i hi => ?_, fun p => fetch_weather_for_range_ok _ _ _ _ _ _ _⟩
  refine ⟨(start_date - 365 * (i : Int), end_date - 365 * (i : Int)),
    (start_date - 365 * ((i + 1 : Nat) : Int), end_date - 365 * ((i + 1 : Nat) : Int)),
    ?_, ?_, ?_, ?_⟩
  · simp [attemptedWindows, List.getElem?_map, List.getElem?_range, Nat.lt_succ_of_lt hi]
  · simp [attemptedWindows, List.getElem?_map, List.getElem?_range, Nat.succ_lt_succ hi]
  · push_cast
    omega
  · push_cast
    omega

theorem fetch_attempts_all_offsets_witness :
    (attemptedWindows 5 9 1).length = 1 + 1 ∧
    (∀ i : Nat, i < 1 →
      ∃ w w', (attemptedWindows 5 9 1)[i]? = some w ∧ (attemptedWindows 5 9 1)[i + 1]? = some w' ∧
        w'.1 < w.1 ∧ w'.2 < w.2) ∧
    (∀ get_historical_weather : Rat → Rat → Int → Int → Except Err (List Nat),
      fetch_weather_for_range "Testville" (.ok (10, 20)) get_historical_weather 5 9 1
        = .ok ((attemptedWindows 5 9 1).flatMap (periodRecords get_historical_weather 10 20))) :=
  fetch_attempts_all_offsets "Testville" 10 20 5 9 1 (by norm_num)

/-- C1: when the provider call for exactly one offset `f` raises and every other
offset succeeds, the service returns (as a success — the failure never escapes
the aggregation boundary) precisely the succeeding offsets' records, in offset
order with provider order preserved inside each offset. -/
theorem single_offset_failure_is_skipped {α : Type} (location : String) (latitude longitude : Rat)
    (get_historical_weather : Rat → Rat → Int → Int → Except Err (List α))
    (start_date end_date : Int) (years_past f : Nat) (r : Nat → List α) (err : Err)
    (hf : f ≤ years_past)
    (hfail : get_historical_weather latitude longitude
      (start_date - 365 * (f : Int)) (end_date - 365 * (f : Int)) = .error err)
    (hsucc : ∀ k : Nat, k ≤ years_past → k ≠ f →
      get_historical_weather latitude longitude
        (start_date - 365 * (k : Int)) (end_date - 365 * (k : Int)) = .ok (r k)) :
    fetch_weather_for_range location (.ok (latitude, longitude)) get_historical_weather
        start_date end_date years_past
      = .ok (((List.range (years_past + 1)).filter (fun k => k != f)).flatMap r) := by
  rw [fetch_weather_for_range_ok]
  congr 1
  rw [attemptedWindows, List.flatMap_map]
  refine flatMap_eq_filter_flatMap _ _ r f (fun k hk => ?_)
  by_cases hkf : k = f
  · subst hkf
    simp [periodRecords, hfail]
  · have hk' : k ≤ years_past := Nat.lt_succ_iff.mp (List.mem_range.mp hk)
    simp [periodRecords, hsucc k hk' hkf, hkf]

theorem single_offset_failure_is_skipped_witness :
    fetch_weather_for_range "Testville" (.ok (10, 20))
        (fun _ _ cs _ => if cs = (100 : Int) - 365 then Except.error Err.networkError
          else Except.ok [7])
        100 100 1
      = .ok (((List.range (1 + 1)).filter (fun k => k != 1)).flatMap (fun _ => ([7] : List Nat))) :=
  single_offset_failure_is_skipped "Testville" 10 20 _ 100 100 1 1 (fun _ => [7]) .networkError
    (by norm_num) (by norm_num)
    (fun k hk hkf => by
      have hk0 : k = 0 := by omega
      subst hk0
      norm_num)

/-- C4: a geocoding failure makes the whole call fail with the
location-resolution error `Err.locationNotFound` — an error value, distinguishable
from an empty success — and the result then does not depend on the provider at
all (the provider is never consulted: the loop is unreachable); conversely with
geocoding succeeding, if every provider call yields no records (empty success or
failure), the call returns the empty list as a non-error `.ok` result. -/
theorem geocoding_failure_fatal_and_empty_is_success {α : Type} (location : String) (err : Err)
    (latitude longitude : Rat) (start_date end_date : Int) (years_past : Nat) :
    (∀ get_historical_weather : Rat → Rat → Int → Int → Except Err (List α),
      fetch_weather_for_range location (.error err) get_historical_weather
          start_date end_date years_past
        = .error (.locationNotFound location)) ∧
    (∀ get_historical_weather : Rat → Rat → Int → Int → Except Err (List α),
      (∀ la lo cs ce, get_historical_weather la lo cs ce = .ok [] ∨
        ∃ e, get_historical_weather la lo cs ce = .error e) →
      fetch_weather_for_range location (.ok (latitude, longitude)) get_historical_weather
          start_date end_date years_past = .ok []) := by
  constructor
  · intro p
    rfl
  · intro p hp
    rw [fetch_weather_for_range_ok]
    congr 1
    rw [List.flatMap_eq_nil_iff]
    intro w hw
    rcases hp latitude longitude w.1 w.2 with h | ⟨e, h⟩ <;> simp [periodRecords, h]

theorem geocoding_failure_fatal_and_empty_is_success_witness :
    fetch_weather_for_range "L" (.error .networkError)
        (fun _ _ _ _ => Except.ok ([] : List Nat)) 0 0 0
      = .error (.locationNotFound "L") ∧
    fetch_weather_for_range "L" (.ok ((10 : Rat), (20 : Rat)))
        (fun _ _ _ _ => Except.ok ([] : List Nat)) 0 0 0
      = .ok [] :=
  ⟨(geocoding_failure_fatal_and_empty_is_success "L" .networkError 10 20 0 0 0).1 _,
   (geocoding_failure_fatal_and_empty_is_success "L" .networkError 10 20 0 0 0).2 _
     (fun _ _ _ _ => Or.inl rfl)⟩

/-- C10: the implemented years-back policy is a fixed 365-day shift — offset `k`'s
window is exactly `(start_date - 365*k, end_date - 365*k)`, so every offset
window has the same length in days as the input window — and this drifts off the
calendar anniversary across a leap year: shifting 2024-03-01 by 365 days lands
on 2023-03-02, not on the year-field-subtracted 2023-03-01. -/
theorem years_back_is_fixed_365_day_shift (start_date end_date : Int) (years_past : Nat) :
    (∀ k : Nat, k ≤ years_past →
      (attemptedWindows start_date end_date years_past)[k]? =
        some (start_date - 365 * (k : Int), end_date - 365 * (k : Int)) ∧
      (end_date - 365 * (k : Int)) - (start_date - 365 * (k : Int)) = end_date - start_date) ∧
    toOrdinal 2024 3 1 - 365 * 1 = toOrdinal 2023 3 2 ∧
    toOrdinal 2024 3 1 - 365 * 1 ≠ toOrdinal (2024 - 1) 3 1 := by
  refine ⟨fun k hk => ⟨?_, by ring⟩, by decide, by decide⟩
  simp [attemptedWindows, List.getElem?_map, List.getElem?_range, Nat.lt_succ_iff.mpr hk]

theorem years_back_is_fixed_365_day_shift_witness :
    (attemptedWindows 5 9 2)[1]? = some (5 - 365 * 1, 9 - 365 * 1) ∧
    (9 - 365 * (1 : Int)) - (5 - 365 * 1) = 9 - 5 :=
  (years_back_is_fixed_365_day_shift 5 9 2).1 1 (by norm_num)

/-! ## Range-query provider (`emsawd/repositories/weather_repository.py`)

`WeatherRepository.get_historical_weather` sends one request for the whole
window and parses the parallel `daily` arrays of the Open-Meteo archive
response.  The oracle argument maps the request parameters to the parsed
payload the code would see. -/

/-- The `daily` object of an Open-Meteo archive response.  `time` holds ISO
date strings, modelled as date ordinals; a JSON `null` inside an array is
`none`.  A missing array key defaults to `[]` (`daily_data.get(..., [])`). -/
structure OpenMeteoDaily where
  time : List Int
  temperature_2m_max : List (Option Rat)
  temperature_2m_min : List (Option Rat)
  precipitation_sum : List (Option Rat)
  deriving DecidableEq, Repr

/-- Outcome of the single Open-Meteo HTTP call: network failure
(`requests.exceptions.RequestException`), or a JSON body whose `daily` member
is missing/falsy (`none`) or present. -/
inductive OpenMeteoResponse where
  | netFail
  | payload (daily : Option OpenMeteoDaily)
  deriving DecidableEq, Repr

/-- The record-building loop of weather_repository.py lines 66–85:
`for i, record_date_str in enumerate(dates)` with positional indexing into the
other three arrays.  Indexing past the end of `max_temps`/`min_temps`/
`precipitations` is an `IndexError`, caught at line 93 and re-raised as
`ValueError("Error parsing ...")`; the `ValueError` from `WeatherRecord`
construction is not in that `except` tuple and propagates as-is. -/
def parseDailyLoop : List Int → List (Option Rat) → List (Option Rat) → List (Option Rat) →
    Except Err (List WeatherRecord)
  | [], _, _, _ => .ok []
  | record_date :: dates, mx :: max_temps, mn :: min_temps, pr :: precipitations =>
    let max_temp := mx.getD 0
    let min_temp := mn.getD 0
    let precipitation := pr.getD 0
    match mkWeatherRecord record_date (yearOfOrdinal record_date) "" max_temp min_temp
        precipitation with
    | .error e => .error e
    | .ok r => (parseDailyLoop dates max_temps min_temps precipitations).map (fun rs => r :: rs)
  | _ :: _, _, _, _ => .error (.parseError .indexError)

def WeatherRepository.get_historical_weather
    (api : Rat → Rat → Int → Int → OpenMeteoResponse)
    (latitude longitude : Rat) (start_date end_date : Int) : Except Err (List WeatherRecord) :=
  match api latitude longitude start_date end_date with
  | .netFail => .error .networkError
  | .payload none => .error .missingDailyData
  | .payload (some daily_data) =>
    parseDailyLoop daily_data.time daily_data.temperature_2m_max
      daily_data.temperature_2m_min daily_data.precipitation_sum

/-- Modelled from the spec's words for the range-query contract (§4.2): zip the
parallel arrays positionally and substitute `0.0` for any `null`, one record
per date, no validation.  Compared against `parseDailyLoop`. -/
def specZipRecords : List Int → List (Option Rat) → List (Option Rat) → List (Option Rat) →
    List WeatherRecord
  | d :: dates, mx :: max_temps, mn :: min_temps, pr :: precipitations =>
    ⟨d, yearOfOrdinal d, "", mx.getD 0, mn.getD 0, pr.getD 0⟩ ::
      specZipRecords dates max_temps min_temps precipitations
  | _, _, _, _ => []

/-! ## Per-day-query providers

Each is a `while current_date <= end_date` loop issuing one request per day;
the oracle maps the request's coordinates and day to the parsed payload.
`epochOrdinal` is `date.fromtimestamp(0)` = 1970-01-01 (the default when the
response lacks a `time` key). -/

def epochOrdinal : Int := 719163

/-- One entry of `data["daily"]["data"]` in a Pirate Weather response.  `time`
is a Unix timestamp, modelled as the calendar day it resolves to under
`datetime.fromtimestamp(...).date()`; each `.get(key, default)` field is an
`Option`. -/
structure PirateDayData where
  time : Option Int
  temperatureHigh : Option Rat
  temperatureLow : Option Rat
  precipAccumulation : Option Rat
  deriving DecidableEq, Repr

inductive PirateResponse where
  | netFail
  /-- `data.get("daily", {}).get("data", [])`. -/
  | payload (daily_data : List PirateDayData)
  deriving DecidableEq, Repr

/-- The loop of pirate_weather_repository.py lines 38–92.  An empty `daily`
block logs and continues to the next day; a date mismatch between the response
timestamp and the requested day uses the returned date (lines 66–72); the
`ValueError` from record construction is caught at line 88 and re-raised as a
parse `ValueError`. -/
def pirateLoop (api : Rat → Rat → Int → PirateResponse) (latitude longitude : Rat)
    (current_date end_date : Int) : Except Err (List WeatherRecord) :=
  if current_date ≤ end_date then
    match api latitude longitude current_date with
    | .netFail => .error .networkError
    | .payload [] => pirateLoop api latitude longitude (current_date + 1) end_date
    | .payload (day_data :: _) =>
      let max_temp := day_data.temperatureHigh.getD 0
      let min_temp := day_data.temperatureLow.getD 0
      let precipitation := day_data.precipAccumulation.getD 0
      let timestamp_date := day_data.time.getD epochOrdinal
      let record_date := if timestamp_date ≠ current_date then timestamp_date else current_date
      match mkWeatherRecord record_date (yearOfOrdinal record_date) "" max_temp min_temp
          precipitation with
      | .error e => .error (.parseError e)
      | .ok r =>
        (pirateLoop api latitude longitude (current_date + 1) end_date).map (fun rs => r :: rs)
  else .ok []
termination_by (end_date + 1 - current_date).toNat
decreasing_by all_goals omega

def PirateWeatherRepository.get_historical_weather (api : Rat → Rat → Int → PirateResponse)
    (latitude longitude : Rat) (start_date end_date : Int) : Except Err (List WeatherRecord) :=
  pirateLoop api latitude longitude start_date end_date

/-- `data["data"][0]` of an OpenWeatherMap timemachine response.  `humidity`,
`pressure` and `wind_speed` are read by the code but unused.  `rain` is
`Option (Option Rat)`: outer `none` models `"rain" not in current_data`, inner
`none` a `rain` object without `"1h"`. -/
structure OpenWeatherData where
  temp : Option Rat
  humidity : Option Rat
  rain : Option (Option Rat)
  pressure : Option Rat
  wind_speed : Option Rat
  deriving DecidableEq, Repr

inductive OpenWeatherResponse where
  | netFail
  /-- `data.get("data", [])`; an empty list makes `current_data` `None`. -/
  | payload (data : List OpenWeatherData)
  deriving DecidableEq, Repr

/-- The loop of openweather_repository.py lines 41–97.  A day with no data
logs and continues; `temp` is Kelvin-converted when `temp > 200`; max and min
are both approximated by the single converted temperature (lines 73–77). -/
def openWeatherLoop (api : Rat → Rat → Int → OpenWeatherResponse) (latitude longitude : Rat)
    (current_date end_date : Int) : Except Err (List WeatherRecord) :=
  if current_date ≤ end_date then
    match api latitude longitude current_date with
    | .netFail => .error .networkError
    | .payload [] => openWeatherLoop api latitude longitude (current_date + 1) end_date
    | .payload (current_data :: _) =>
      let temp := current_data.temp.getD 0
      let precipitation : Rat :=
        match current_data.rain with
        | none => 0
        | some r => r.getD 0
      let temp_c := if temp > 200 then temp - 273.15 else temp
      let max_temp := temp_c
      let min_temp := temp_c
      match mkWeatherRecord current_date (yearOfOrdinal current_date) "" max_temp min_temp
          precipitation with
      | .error e => .error (.parseError e)
      | .ok r =>
        (openWeatherLoop api latitude longitude (current_date + 1) end_date).map
          (fun rs => r :: rs)
  else .ok []
termination_by (end_date + 1 - current_date).toNat
decreasing_by all_goals omega

def OpenWeatherRepository.get_historical_weather (api : Rat → Rat → Int → OpenWeatherResponse)
    (latitude longitude : Rat) (start_date end_date : Int) : Except Err (List WeatherRecord) :=
  openWeatherLoop api latitude longitude start_date end_date

/-- One entry of an AccuWeather historical response.  `epochDate` is the
`EpochDate` timestamp the response carries for the observation day (modelled as
the day it resolves to); the parsing code never reads it.  The nested
`.get(...).get(...).get("Value", 0)` chains collapse to one `Option` each. -/
structure AccuDayData where
  epochDate : Option Int
  temperatureMaximum : Option Rat
  temperatureMinimum : Option Rat
  dayRain : Option Rat
  deriving DecidableEq, Repr

inductive AccuResponse where
  | netFail
  | payload (data : List AccuDayData)
  deriving DecidableEq, Repr

/-- Outcome of `_get_location_key`'s geoposition call: an uncaught
`RequestException`, or `data.get("Key", "")`. -/
inductive AccuGeoResponse where
  | netFail
  | payload (key : String)
  deriving DecidableEq, Repr

/-- The loop of accuweather_repository.py lines 59–106.  An empty response
logs and continues; the record is always built from `current_date` — the
requested day — regardless of the response's own `EpochDate` (lines 88–91). -/
def accuLoop (api : String → Int → AccuResponse) (location_key : String)
    (current_date end_date : Int) : Except Err (List WeatherRecord) :=
  if current_date ≤ end_date then
    match api location_key current_date with
    | .netFail => .error .networkError
    | .payload [] => accuLoop api location_key (current_date + 1) end_date
    | .payload (day_data :: _) =>
      let max_temp := day_data.temperatureMaximum.getD 0
      let min_temp := day_data.temperatureMinimum.getD 0
      let precipitation := day_data.dayRain.getD 0
      match mkWeatherRecord current_date (yearOfOrdinal current_date) "" max_temp min_temp
          precipitation with
      | .error e => .error (.parseError e)
      | .ok r => (accuLoop api location_key (current_date + 1) end_date).map (fun rs => r :: rs)
  else .ok []
termination_by (end_date + 1 - current_date).toNat
decreasing_by all_goals omega

def AccuWeatherRepository.get_historical_weather (geoApi : AccuGeoResponse)
    (api : String → Int → AccuResponse) (latitude longitude : Rat)
    (start_date end_date : Int) : Except Err (List WeatherRecord) :=
  match geoApi with
  | .netFail => .error .requestException
  | .payload location_key =>
    if location_key = "" then .error .locationKeyError
    else accuLoop api location_key start_date end_date

/-! ## Claims about the range-query provider -/

theorem specZipRecords_length (dates : List Int) (maxs mins precs : List (Option Rat))
    (h1 : maxs.length = dates.length) (h2 : mins.length = dates.length)
    (h3 : precs.length = dates.length) :
    (specZipRecords dates maxs mins precs).length = dates.length := by
  induction dates generalizing maxs mins precs with
  | nil => cases maxs <;> cases mins <;> cases precs <;> simp_all [specZipRecords]
  | cons d dates ih =>
    cases maxs with
    | nil => simp at h1
    | cons mx maxs =>
      cases mins with
      | nil => simp at h2
      | cons mn mins =>
        cases precs with
        | nil => simp at h3
        | cons pr precs =>
          simp only [List.length_cons, Nat.succ.injEq] at h1 h2 h3
          simp only [specZipRecords, List.length_cons, ih maxs mins precs h1 h2 h3]

theorem parseDailyLoop_ok (dates : List Int) (maxs mins precs : List (Option Rat))
    (h1 : maxs.length = dates.length) (h2 : mins.length = dates.length)
    (h3 : precs.length = dates.length)
    (hv : ∀ (i : Nat) (mx mn : Option Rat), maxs[i]? = some mx → mins[i]? = some mn →
      mn.getD 0 ≤ mx.getD 0) :
    parseDailyLoop dates maxs mins precs = .ok (specZipRecords dates maxs mins precs) := by
  induction dates generalizing maxs mins precs with
  | nil => cases maxs <;> cases mins <;> cases precs <;> simp_all [parseDailyLoop, specZipRecords]
  | cons d dates ih =>
    cases maxs with
    | nil => simp at h1
    | cons mx maxs =>
      cases mins with
      | nil => simp at h2
      | cons mn mins =>
        cases precs with
        | nil => simp at h3
        | cons pr precs =>
          simp only [List.length_cons, Nat.succ.injEq] at h1 h2 h3
          have h0 : mn.getD 0 ≤ mx.getD 0 :=
            hv 0 mx mn (by simp) (by simp)
          have ihr := ih maxs mins precs h1 h2 h3
            (fun i mx' mn' hmx hmn =>
              hv (i + 1) mx' mn' (by simpa using hmx) (by simpa using hmn))
          simp only [parseDailyLoop, specZipRecords, mkWeatherRecord, if_neg (not_lt.mpr h0), ihr,
            Except.map]

/-- C5 (amended): for a well-shaped response (equal-length parallel arrays)
whose null-substituted temperatures satisfy the record invariant at every
index, the range-query provider zips the arrays positionally, substitutes `0.0`
for every `null`, and returns exactly one record per date.  (Without the
invariant hypothesis the claim is false: see the counterexample, where a null
max-temp next to a positive min-temp makes the whole call raise.) -/
theorem range_provider_zips_with_null_defaults
    (api : Rat → Rat → Int → Int → OpenMeteoResponse) (latitude longitude : Rat)
    (start_date end_date : Int) (daily_data : OpenMeteoDaily)
    (hresp : api latitude longitude start_date end_date = .payload (some daily_data))
    (h1 : daily_data.temperature_2m_max.length = daily_data.time.length)
    (h2 : daily_data.temperature_2m_min.length = daily_data.time.length)
    (h3 : daily_data.precipitation_sum.length = daily_data.time.length)
    (hv : ∀ (i : Nat) (mx mn : Option Rat), daily_data.temperature_2m_max[i]? = some mx →
      daily_data.temperature_2m_min[i]? = some mn → mn.getD 0 ≤ mx.getD 0) :
    WeatherRepository.get_historical_weather api latitude longitude start_date end_date
      = .ok (specZipRecords daily_data.time daily_data.temperature_2m_max
          daily_data.temperature_2m_min daily_data.precipitation_sum) ∧
    (specZipRecords daily_data.time daily_data.temperature_2m_max
        daily_data.temperature_2m_min daily_data.precipitation_sum).length
      = daily_data.time.length := by
  refine ⟨?_, specZipRecords_length _ _ _ _ h1 h2 h3⟩
  simp only [WeatherRepository.get_historical_weather, hresp]
  exact parseDailyLoop_ok _ _ _ _ h1 h2 h3 hv

theorem range_provider_zips_with_null_defaults_witness :
    WeatherRepository.get_historical_weather
        (fun _ _ _ _ => .payload (some ⟨[738946], [none], [none], [none]⟩)) 10 20 738946 738946
      = .ok (specZipRecords [738946] [none] [none] [none]) ∧
    (specZipRecords [738946] [none] [none] [none]).length = ([738946] : List Int).length :=
  range_provider_zips_with_null_defaults _ 10 20 738946 738946 ⟨[738946], [none], [none], [none]⟩
    rfl rfl rfl rfl
    (fun i mx mn hmx hmn => by
      match i with
      | 0 =>
        simp only [List.getElem?_cons_zero, Option.some.injEq] at hmx hmn
        subst hmx
        subst hmn
        norm_num
      | n + 1 => simp at hmx)

/-- Counterexample to C5 as stated: a well-shaped single-row response with a
null max-temperature and min-temperature `5.0` does not produce one record per
date — the `0.0` substitution violates the construction invariant and the whole
call raises the validation `ValueError` instead of returning records. -/
theorem range_provider_null_row_raises :
    WeatherRepository.get_historical_weather
        (fun _ _ _ _ => .payload (some ⟨[738946], [none], [some 5], [none]⟩)) 10 20 738946 738946
      = .error (.validationError 0 5) := by
  rfl

theorem parseDailyLoop_validation_error (v : Rat) (hv : 0 < v) (i : Nat) :
    ∀ (dates : List Int) (maxs mins precs : List (Option Rat)),
    maxs.length = dates.length → mins.length = dates.length → precs.length = dates.length →
    maxs[i]? = some none → mins[i]? = some (some v) →
    (∀ j, j < i → ∀ (mx mn : Option Rat), maxs[j]? = some mx → mins[j]? = some mn →
      mn.getD 0 ≤ mx.getD 0) →
    parseDailyLoop dates maxs mins precs = .error (.validationError 0 v) := by
  induction i with
  | zero =>
    intro dates maxs mins precs h1 h2 h3 hmax hmin _
    cases maxs with
    | nil => simp at hmax
    | cons mx maxs =>
      cases mins with
      | nil => simp at hmin
      | cons mn mins =>
        simp only [List.getElem?_cons_zero, Option.some.injEq] at hmax hmin
        subst hmax
        subst hmin
        cases dates with
        | nil => simp at h1
        | cons d dates =>
          cases precs with
          | nil => simp at h3
          | cons pr precs =>
            simp only [parseDailyLoop, mkWeatherRecord, Option.getD_none, Option.getD_some,
              if_pos hv]
  | succ i ih =>
    intro dates maxs mins precs h1 h2 h3 hmax hmin hearlier
    cases maxs with
    | nil => simp at hmax
    | cons mx maxs =>
      cases mins with
      | nil => simp at hmin
      | cons mn mins =>
        cases dates with
        | nil => simp at h1
        | cons d dates =>
          cases precs with
          | nil => simp at h3
          | cons pr precs =>
            simp only [List.length_cons, Nat.succ.injEq] at h1 h2 h3
            simp only [List.getElem?_cons_succ] at hmax hmin
            have h0 : mn.getD 0 ≤ mx.getD 0 :=
              hearlier 0 (Nat.succ_pos i) mx mn (by simp) (by simp)
            have ihr := ih dates maxs mins precs h1 h2 h3 hmax hmin
              (fun j hj mx' mn' hmx' hmn' =>
                hearlier (j + 1) (Nat.succ_lt_succ hj) mx' mn'
                  (by simpa using hmx') (by simpa using hmn'))
            simp only [parseDailyLoop, mkWeatherRecord, if_neg (not_lt.mpr h0), ihr, Except.map]

/-- C8: when the parsed range-query response has, at some index `i`, a null
max-temperature next to a min-temperature `v > 0` (all earlier rows being
well-formed), the whole `get_historical_weather` call raises the validation
`ValueError` — no records at all are returned, the earlier well-formed rows
included — because the `0.0` substitution violates the construction invariant. -/
theorem null_max_positive_min_aborts_whole_call
    (api : Rat → Rat → Int → Int → OpenMeteoResponse) (latitude longitude : Rat)
    (start_date end_date : Int) (daily_data : OpenMeteoDaily) (i : Nat) (v : Rat)
    (hresp : api latitude longitude start_date end_date = .payload (some daily_data))
    (h1 : daily_data.temperature_2m_max.length = daily_data.time.length)
    (h2 : daily_data.temperature_2m_min.length = daily_data.time.length)
    (h3 : daily_data.precipitation_sum.length = daily_data.time.length)
    (hmax : daily_data.temperature_2m_max[i]? = some none)
    (hmin : daily_data.temperature_2m_min[i]? = some (some v))
    (hv : 0 < v)
    (hearlier : ∀ j, j < i → ∀ (mx mn : Option Rat), daily_data.temperature_2m_max[j]? = some mx →
      daily_data.temperature_2m_min[j]? = some mn → mn.getD 0 ≤ mx.getD 0) :
    WeatherRepository.get_historical_weather api latitude longitude start_date end_date
      = .error (.validationError 0 v) := by
  simp only [WeatherRepository.get_historical_weather, hresp]
  exact parseDailyLoop_validation_error v hv i _ _ _ _ h1 h2 h3 hmax hmin hearlier

theorem null_max_positive_min_aborts_whole_call_witness :
    WeatherRepository.get_historical_weather
        (fun _ _ _ _ => .payload
          (some ⟨[738946, 738947], [some 1, none], [some 0, some 5], [some 0, some 0]⟩))
        10 20 738946 738947
      = .error (.validationError 0 5) :=
  null_max_positive_min_aborts_whole_call _ 10 20 738946 738947
    ⟨[738946, 738947], [some 1, none], [some 0, some 5], [some 0, some 0]⟩ 1 5
    rfl rfl rfl rfl rfl rfl (by norm_num)
    (fun j hj mx mn hmx hmn => by
      match j with
      | 0 =>
        simp only [List.getElem?_cons_zero, Option.some.injEq] at hmx hmn
        subst hmx
        subst hmn
        norm_num
      | n + 1 => omega)

/-! ## Claims about the per-day-query providers -/

/-- Modelled from the spec's words for the per-day contract (§4.2): iterate
each calendar day of `[current_date, end_date]` in order; a day with no data
contributes nothing, a day with data contributes its record. -/
def specPerDayRecords (step : Int → Option WeatherRecord) (current_date end_date : Int) :
    List WeatherRecord :=
  if current_date ≤ end_date then
    match step current_date with
    | none => specPerDayRecords step (current_date + 1) end_date
    | some r => r :: specPerDayRecords step (current_date + 1) end_date
  else []
termination_by (end_date + 1 - current_date).toNat
decreasing_by all_goals omega

/-- The record one day of the Pirate Weather loop produces: `none` when the
day's `daily` block is empty (or the request fails), the parsed record —
with the returned date trusted on a mismatch — otherwise. -/
def pirateStep (api : Rat → Rat → Int → PirateResponse) (latitude longitude : Rat)
    (d : Int) : Option WeatherRecord :=
  match api latitude longitude d with
  | .payload (day_data :: _) =>
    let timestamp_date := day_data.time.getD epochOrdinal
    let record_date := if timestamp_date ≠ d then timestamp_date else d
    some ⟨record_date, yearOfOrdinal record_date, "", day_data.temperatureHigh.getD 0,
      day_data.temperatureLow.getD 0, day_data.precipAccumulation.getD 0⟩
  | _ => none

/-- A day's Pirate Weather response is benign: either an empty `daily` block
(the log-and-continue case) or a well-formed first entry. -/
def pirateDayGood (api : Rat → Rat → Int → PirateResponse) (latitude longitude : Rat)
    (d : Int) : Prop :=
  api latitude longitude d = .payload [] ∨
  ∃ day_data rest, api latitude longitude d = .payload (day_data :: rest) ∧
    day_data.temperatureLow.getD 0 ≤ day_data.temperatureHigh.getD 0

theorem pirateLoop_eq_spec (api : Rat → Rat → Int → PirateResponse) (latitude longitude : Rat)
    (end_date : Int) :
    ∀ (n : Nat) (current : Int), (end_date + 1 - current).toNat = n →
    (∀ d, current ≤ d → d ≤ end_date → pirateDayGood api latitude longitude d) →
    pirateLoop api latitude longitude current end_date
      = .ok (specPerDayRecords (pirateStep api latitude longitude) current end_date) := by
  intro n
  induction n using Nat.strong_induction_on with
  | _ n ih =>
    intro current hn hgood
    rw [pirateLoop, specPerDayRecords]
    by_cases hce : current ≤ end_date
    · simp only [if_pos hce]
      have hrec := ih ((end_date + 1 - (current + 1)).toNat) (by omega) (current + 1) rfl
        (fun d h1 h2 => hgood d (by omega) h2)
      rcases hgood current le_rfl hce with hempty | ⟨day_data, rest, hresp, hwf⟩
      · rw [hempty, show pirateStep api latitude longitude current = none from by
          simp [pirateStep, hempty]]
        exact hrec
      · rw [hresp, show pirateStep api latitude longitude current
            = some ⟨(if day_data.time.getD epochOrdinal ≠ current
                then day_data.time.getD epochOrdinal else current),
              yearOfOrdinal (if day_data.time.getD epochOrdinal ≠ current
                then day_data.time.getD epochOrdinal else current), "",
              day_data.temperatureHigh.getD 0, day_data.temperatureLow.getD 0,
              day_data.precipAccumulation.getD 0⟩ from by simp [pirateStep, hresp]]
        simp only [mkWeatherRecord, if_neg (not_lt.mpr hwf), hrec, Except.map]
    · simp [if_neg hce]

/-- The record one day of the OpenWeather loop produces. -/
def openWeatherStep (api : Rat → Rat → Int → OpenWeatherResponse) (latitude longitude : Rat)
    (d : Int) : Option WeatherRecord :=
  match api latitude longitude d with
  | .payload (current_data :: _) =>
    let temp := current_data.temp.getD 0
    let precipitation : Rat :=
      match current_data.rain with
      | none => 0
      | some r => r.getD 0
    let temp_c := if temp > 200 then temp - 273.15 else temp
    some ⟨d, yearOfOrdinal d, "", temp_c, temp_c, precipitation⟩
  | _ => none

/-- A day's OpenWeather request does not fail at the transport layer (its
payload may still be empty — the log-and-continue case). -/
def openWeatherDayGood (api : Rat → Rat → Int → OpenWeatherResponse) (latitude longitude : Rat)
    (d : Int) : Prop :=
  ∃ data, api latitude longitude d = .payload data

theorem openWeatherLoop_eq_spec (api : Rat → Rat → Int → OpenWeatherResponse)
    (latitude longitude : Rat) (end_date : Int) :
    ∀ (n : Nat) (current : Int), (end_date + 1 - current).toNat = n →
    (∀ d, current ≤ d → d ≤ end_date → openWeatherDayGood api latitude longitude d) →
    openWeatherLoop api latitude longitude current end_date
      = .ok (specPerDayRecords (openWeatherStep api latitude longitude) current end_date) := by
  intro n
  induction n using Nat.strong_induction_on with
  | _ n ih =>
    intro current hn hgood
    rw [openWeatherLoop, specPerDayRecords]
    by_cases hce : current ≤ end_date
    · simp only [if_pos hce]
      have hrec := ih ((end_date + 1 - (current + 1)).toNat) (by omega) (current + 1) rfl
        (fun d h1 h2 => hgood d (by omega) h2)
      obtain ⟨data, hresp⟩ := hgood current le_rfl hce
      cases data with
      | nil =>
        rw [hresp, show openWeatherStep api latitude longitude current = none from by
          simp [openWeatherStep, hresp]]
        exact hrec
      | cons current_data rest =>
        rw [hresp, show openWeatherStep api latitude longitude current
            = some ⟨current, yearOfOrdinal current, "",
              (if current_data.temp.getD 0 > 200 then current_data.temp.getD 0 - 273.15
                else current_data.temp.getD 0),
              (if current_data.temp.getD 0 > 200 then current_data.temp.getD 0 - 273.15
                else current_data.temp.getD 0),
              (match current_data.rain with | none => 0 | some r => r.getD 0)⟩ from by
          simp [openWeatherStep, hresp]]
        simp only [mkWeatherRecord, if_neg (lt_irrefl _), hrec, Except.map]
    · simp [if_neg hce]

/-- C6: both per-day providers (Pirate Weather and OpenWeather) iterate each
calendar day of `[start_date, end_date]` in order, one request per day, and a
day whose response contains no data contributes nothing while the loop
continues to the next day without raising — the result is exactly the per-day
records of the data-bearing days (`specPerDayRecords`), wrapped in a
non-error `.ok`. -/
theorem per_day_missing_day_never_aborts :
    (∀ (api : Rat → Rat → Int → PirateResponse) (latitude longitude : Rat)
        (start_date end_date : Int), start_date ≤ end_date →
      (∀ d, start_date ≤ d → d ≤ end_date → pirateDayGood api latitude longitude d) →
      PirateWeatherRepository.get_historical_weather api latitude longitude start_date end_date
        = .ok (specPerDayRecords (pirateStep api latitude longitude) start_date end_date)) ∧
    (∀ (api : Rat → Rat → Int → OpenWeatherResponse) (latitude longitude : Rat)
        (start_date end_date : Int), start_date ≤ end_date →
      (∀ d, start_date ≤ d → d ≤ end_date → openWeatherDayGood api latitude longitude d) →
      OpenWeatherRepository.get_historical_weather api latitude longitude start_date end_date
        = .ok (specPerDayRecords (openWeatherStep api latitude longitude) start_date end_date)) := by
  constructor
  · intro api latitude longitude start_date end_date _ hgood
    exact pirateLoop_eq_spec api latitude longitude end_date _ start_date rfl hgood
  · intro api latitude longitude start_date end_date _ hgood
    exact openWeatherLoop_eq_spec api latitude longitude end_date _ start_date rfl hgood

theorem per_day_missing_day_never_aborts_witness :
    PirateWeatherRepository.get_historical_weather
        (fun _ _ d => if d = 0 then .payload [] else .payload [⟨some 1, some 10, some 5, some 2⟩])
        10 20 0 1
      = .ok (specPerDayRecords
          (pirateStep (fun _ _ d => if d = 0 then .payload []
            else .payload [⟨some 1, some 10, some 5, some 2⟩]) 10 20) 0 1) :=
  per_day_missing_day_never_aborts.1
    (fun _ _ d => if d = 0 then .payload [] else .payload [⟨some 1, some 10, some 5, some 2⟩])
    10 20 0 1 (by norm_num)
    (fun d h1 h2 => by
      rcases (show d = 0 ∨ d = 1 by omega) with rfl | rfl
      · exact Or.inl rfl
      · exact Or.inr ⟨⟨some 1, some 10, some 5, some 2⟩, [], rfl, by norm_num⟩)

/-- C7 (amended): the claim holds for the Pirate Weather per-day provider — on
a response whose embedded timestamp resolves to a day other than the requested
one, the record's `record_date` and `year` come from the returned date — but
not for every per-day provider: the AccuWeather provider builds its record from
the requested `current_date` unconditionally, ignoring the response's own
date (see the counterexample). -/
theorem pirate_provider_trusts_returned_date (api : Rat → Rat → Int → PirateResponse)
    (latitude longitude : Rat) (d : Int) (day_data : PirateDayData) (rest : List PirateDayData)
    (hresp : api latitude longitude d = .payload (day_data :: rest))
    (hmismatch : day_data.time.getD epochOrdinal ≠ d)
    (hwf : day_data.temperatureLow.getD 0 ≤ day_data.temperatureHigh.getD 0) :
    PirateWeatherRepository.get_historical_weather api latitude longitude d d
      = .ok [⟨day_data.time.getD epochOrdinal, yearOfOrdinal (day_data.time.getD epochOrdinal),
          "", day_data.temperatureHigh.getD 0, day_data.temperatureLow.getD 0,
          day_data.precipAccumulation.getD 0⟩] := by
  show pirateLoop api latitude longitude d d = _
  rw [pirateLoop, if_pos le_rfl, hresp]
  rw [show pirateLoop api latitude longitude (d + 1) d = .ok [] from by
    rw [pirateLoop, if_neg (by omega)]]
  simp only [mkWeatherRecord, if_pos hmismatch, if_neg (not_lt.mpr hwf), Except.map]

theorem pirate_provider_trusts_returned_date_witness :
    PirateWeatherRepository.get_historical_weather
        (fun _ _ _ => .payload [⟨some 700001, some 10, some 5, some 2⟩]) 10 20 700000 700000
      = .ok [⟨700001, yearOfOrdinal 700001, "", 10, 5, 2⟩] :=
  pirate_provider_trusts_returned_date _ 10 20 700000 ⟨some 700001, some 10, some 5, some 2⟩ []
    rfl (by decide) (by norm_num)

/-- Counterexample to C7 as stated ("this holds for every per-day provider"):
the AccuWeather provider receives a response whose embedded `EpochDate`
resolves to the day after the requested one (700001 vs 700000), yet the
returned record silently keeps the requested date 700000 as its
`record_date`/`year`. -/
theorem accuweather_keeps_requested_date :
    AccuWeatherRepository.get_historical_weather (.payload "key")
        (fun _ day => .payload [⟨some (day + 1), some 10, some 5, some 2⟩]) 10 20 700000 700000
      = .ok [⟨700000, yearOfOrdinal 700000, "", 10, 5, 2⟩] ∧
    ((700000 : Int) + 1 ≠ 700000) := by
  refine ⟨?_, by norm_num⟩
  show (if ("key" : String) = "" then Except.error Err.locationKeyError
    else accuLoop (fun _ day => .payload [⟨some (day + 1), some 10, some 5, some 2⟩])
      "key" 700000 700000) = _
  rw [if_neg (by decide)]
  rw [accuLoop, if_pos le_rfl]
  rw [show accuLoop (fun _ day => AccuResponse.payload [⟨some (day + 1), some 10, some 5, some 2⟩])
      "key" (700000 + 1) 700000 = .ok [] from by rw [accuLoop, if_neg (by omega)]]
  simp only [mkWeatherRecord, Except.map]
  norm_num

theorem openWeatherLoop_max_eq_min (api : Rat → Rat → Int → OpenWeatherResponse)
    (latitude longitude : Rat) (end_date : Int) :
    ∀ (n : Nat) (current : Int), (end_date + 1 - current).toNat = n →
    ∀ recs, openWeatherLoop api latitude longitude current end_date = .ok recs →
    ∀ r ∈ recs, r.max_temp_c = r.min_temp_c := by
  intro n
  induction n using Nat.strong_induction_on with
  | _ n ih =>
    intro current hn recs hok r hr
    rw [openWeatherLoop] at hok
    by_cases hce : current ≤ end_date
    · rw [if_pos hce] at hok
      cases hresp : api latitude longitude current with
      | netFail =>
        rw [hresp] at hok
        exact absurd hok (by simp)
      | payload data =>
        rw [hresp] at hok
        cases data with
        | nil => exact ih _ (by omega) (current + 1) rfl recs hok r hr
        | cons current_data rest =>
          simp only [mkWeatherRecord, if_neg (lt_irrefl _)] at hok
          cases hrec : openWeatherLoop api latitude longitude (current + 1) end_date with
          | error e =>
            rw [hrec] at hok
            exact absurd hok (by simp [Except.map])
          | ok rs =>
            rw [hrec] at hok
            simp only [Except.map, Except.ok.injEq] at hok
            subst hok
            rcases List.mem_cons.mp hr with rfl | hr'
            · rfl
            · exact ih _ (by omega) (current + 1) rfl rs hrec r hr'
    · rw [if_neg hce] at hok
      simp only [Except.ok.injEq] at hok
      subst hok
      simp at hr

/-- C9 (amended): every record the OpenWeather per-day provider returns has
`max_temp_c = min_temp_c` — a daily temperature spread of exactly zero — both
fields being the single observed temperature, Kelvin-converted when its value
exceeds 200 (a value of 200 or below is kept as-is, however large its
magnitude: the code tests `temp > 200`, not the magnitude; see the
counterexample at `temp = -300`). -/
theorem openweather_records_have_zero_spread :
    (∀ (api : Rat → Rat → Int → OpenWeatherResponse) (latitude longitude : Rat)
        (start_date end_date : Int) (recs : List WeatherRecord),
      OpenWeatherRepository.get_historical_weather api latitude longitude start_date end_date
        = .ok recs → ∀ r ∈ recs, r.max_temp_c = r.min_temp_c) ∧
    (∀ (api : Rat → Rat → Int → OpenWeatherResponse) (latitude longitude : Rat) (d : Int)
        (current_data : OpenWeatherData) (rest : List OpenWeatherData),
      api latitude longitude d = .payload (current_data :: rest) →
      OpenWeatherRepository.get_historical_weather api latitude longitude d d
        = .ok [⟨d, yearOfOrdinal d, "",
            (if current_data.temp.getD 0 > 200 then current_data.temp.getD 0 - 273.15
              else current_data.temp.getD 0),
            (if current_data.temp.getD 0 > 200 then current_data.temp.getD 0 - 273.15
              else current_data.temp.getD 0),
            (match current_data.rain with | none => 0 | some r => r.getD 0)⟩]) := by
  constructor
  · intro api latitude longitude start_date end_date recs hok
    exact openWeatherLoop_max_eq_min api latitude longitude end_date _ start_date rfl recs hok
  · intro api latitude longitude d current_data rest hresp
    show openWeatherLoop api latitude longitude d d = _
    rw [openWeatherLoop, if_pos le_rfl, hresp]
    rw [show openWeatherLoop api latitude longitude (d + 1) d = .ok [] from by
      rw [openWeatherLoop, if_neg (by omega)]]
    simp only [mkWeatherRecord, if_neg (lt_irrefl _), Except.map]

theorem openweather_records_have_zero_spread_witness :
    OpenWeatherRepository.get_historical_weather
        (fun _ _ _ => .payload [⟨some 25, none, none, none, none⟩]) 10 20 700000 700000
      = .ok [⟨700000, yearOfOrdinal 700000, "",
          (if (25 : Rat) > 200 then (25 : Rat) - 273.15 else (25 : Rat)),
          (if (25 : Rat) > 200 then (25 : Rat) - 273.15 else (25 : Rat)), 0⟩] :=
  openweather_records_have_zero_spread.2 _ 10 20 700000 ⟨some 25, none, none, none, none⟩ [] rfl

/-- Counterexample to C9's conversion condition as stated ("Kelvin-converted
when its magnitude exceeds 200"): for an observed temperature of `-300` —
magnitude 300 — the code's `temp > 200` test is false, so the record keeps
`-300` unconverted, while magnitude-based conversion would have produced
`-300 - 273.15`. -/
theorem openweather_no_conversion_below_minus_200 :
    OpenWeatherRepository.get_historical_weather
        (fun _ _ _ => .payload [⟨some (-300), none, none, none, none⟩]) 10 20 700000 700000
      = .ok [⟨700000, yearOfOrdinal 700000, "", -300, -300, 0⟩] ∧
    ((-300 : Rat) ≠ -300 - 273.15) := by
  refine ⟨?_, by norm_num⟩
  show openWeatherLoop _ 10 20 700000 700000 = _
  rw [openWeatherLoop, if_pos le_rfl]
  rw [show openWeatherLoop (fun _ _ _ => OpenWeatherResponse.payload
        [⟨some (-300), none, none, none, none⟩]) 10 20 (700000 + 1) 700000 = .ok [] from by
    rw [openWeatherLoop, if_neg (by omega)]]
  simp only [mkWeatherRecord, Except.map]
  norm_num

end Emsawd
